import Mathlib

/-!
Verification of the browser-side admin scripts in this repository.

The repository consists of four scripts:
* `src/app/static/app/store_employee_autocomplete_by_service.js` — wraps the
  `ajax.data` parameter function of a select2 autocomplete widget so that a
  `store_id` derived from the surrounding table row is merged into outgoing
  search parameters (`patchSelect2Ajax`, `getStoreIdFromRow`).
* `src/app/static/app/store_changelist_filters.js` — `updateQuery`,
  `injectServiceFilter`, and a second select2 patcher `patchEmployeeSelect2`
  reading a hidden `-id` form input.
* `src/app/static/app/store_changelist_header_filters.js` — `mountTopFilters`.
* `src/unnamed/part_000` — mounts a `#source_suggestions` datalist.

The embedding below is shallow: JavaScript parameter objects become
association lists `List (String × String)` (property write = `setKey`,
property read = `lookupKey`); DOM context that a wrapper reads at call time
becomes an explicit argument of type `Option String`; the mutable select2
configuration becomes explicit state passed through the patch functions.
select2's `ajax.data` slot is either `undefined` or a function, so the slot
is embedded as `Option DataFn`.
-/

namespace CrmSpec

/-- A JavaScript object used as a bag of request parameters, embedded as an
association list from property name to string value (first binding wins on
read, as JS objects have unique keys). -/
abbrev ParamObj := List (String × String)

/-- JS property write `obj[k] = v`: replace the binding of `k` if present
(keeping its position), otherwise append a new binding. -/
def setKey (k v : String) : ParamObj → ParamObj
  | [] => [(k, v)]
  | (k', v') :: rest => if k' = k then (k, v) :: rest else (k', v') :: setKey k v rest

/-- JS property read `obj[k]`: `some v` for the first binding of `k`,
`none` when the property is absent. -/
def lookupKey (k : String) : ParamObj → Option String
  | [] => none
  | (k', v) :: rest => if k' = k then some v else lookupKey k rest

/-- The context a request-parameter wrapper reads from the live DOM at call
time. For the autocomplete-by-service file this is the `href` of the first
edit link in the widget's table row (`none` when the row has no such link);
for the changelist-filters file it is the value of the row's hidden
`name$="-id"` input (`none` when the row has no such input). -/
abbrev DomCtx := Option String

/-- A select2 `ajax.data` function: given the call-time DOM context and the
incoming `params` object, produce the outgoing parameter object. -/
abbrev DataFn := DomCtx → ParamObj → ParamObj

/-- The regex `\/(\d+)\/change\/?$` of `getStoreIdFromRow` in
`store_employee_autocomplete_by_service.js`: a suffix consisting of a slash,
one or more ASCII digits, `/change`, and an optional trailing slash.
Returns the captured digit group. Implemented on the reversed character
list of the href. -/
def matchStoreId (href : String) : Option String :=
  let rev := href.data.reverse
  let rev1 := match rev with
    | '/' :: rest => rest
    | r => r
  match rev1 with
  | 'e' :: 'g' :: 'n' :: 'a' :: 'h' :: 'c' :: '/' :: rest2 =>
    let ds := rest2.takeWhile Char.isDigit
    let rest3 := rest2.dropWhile Char.isDigit
    if ds.isEmpty then none
    else
      match rest3 with
      | '/' :: _ => some (String.mk ds.reverse)
      | _ => none
  | _ => none

/-- `getStoreIdFromRow($row)` of `store_employee_autocomplete_by_service.js`
(lines 9–18): take the first edit link (`a[href*="/change/"]`) of the row —
embedded as the `DomCtx` argument, `none` when absent — and return the digit
group of `\/(\d+)\/change\/?$`, or `null` (embedded `none`) when there is no
link or no match. -/
def getStoreIdFromRow (row : DomCtx) : Option String :=
  match row with
  | none => none
  | some href => matchStoreId href

/-- The `oldData ? oldData(params) : params` step of the wrapper installed by
`patchSelect2Ajax` (line 30): call the previous `ajax.data` function when one
exists, otherwise start from `params` unchanged. -/
def baseApply (oldData : Option DataFn) (row : DomCtx) (params : ParamObj) : ParamObj :=
  match oldData with
  | some f => f row params
  | none => params

/-- The `if (storeId) data.store_id = storeId;` step of the wrapper installed
by `patchSelect2Ajax` (line 35): merge the extracted id under `store_id` when
it is truthy (a non-empty string), leave `data` untouched otherwise. -/
def mergeStoreId (row : DomCtx) (data : ParamObj) : ParamObj :=
  match getStoreIdFromRow row with
  | some storeId => if storeId = "" then data else setKey "store_id" storeId data
  | none => data

/-- The replacement `ajax.data` function installed by `patchSelect2Ajax`
(`store_employee_autocomplete_by_service.js` lines 29–36): apply the previous
data function (or start from `params`), then merge the store id read from the
row at call time. -/
def select2AjaxWrapper (oldData : Option DataFn) : DataFn :=
  fun row params => mergeStoreId row (baseApply oldData row params)

/-- The select2 `ajax` configuration object: its `data` slot, which is
`undefined` or a function. -/
structure AjaxCfg where
  data : Option DataFn

/-- The `options.options` level of a select2 instance: its `ajax` slot
(`undefined` when the widget was initialised without a network request
configuration). -/
structure S2Opts where
  ajax : Option AjaxCfg

/-- The `options` level of a select2 instance, whose own `options` property
may be absent (the guard of `patchSelect2Ajax` checks it). -/
structure S2Outer where
  options : Option S2Opts

/-- A select2 instance as read by `$input.data("select2")`; its `options`
property may be absent (the guard of `patchSelect2Ajax` checks it). -/
structure S2 where
  options : Option S2Outer

/-- `patchSelect2Ajax($input)` of `store_employee_autocomplete_by_service.js`
(lines 20–37), acting on the state `$input.data("select2")` (which may be
`undefined`, hence `Option S2`): return the state unchanged when
`!s2 || !s2.options || !s2.options.options || !s2.options.options.ajax`,
otherwise replace `ajax.data` with the wrapper around the previous slot. -/
def patchSelect2Ajax : Option S2 → Option S2
  | none => none
  | some s2 =>
    match s2.options with
    | none => some s2
    | some outer =>
      match outer.options with
      | none => some s2
      | some opts =>
        match opts.ajax with
        | none => some s2
        | some ajax =>
          some ⟨some ⟨some ⟨some ⟨some (select2AjaxWrapper ajax.data)⟩⟩⟩⟩

/-- `getStoreIdFromRow(selectEl)` of `store_changelist_filters.js`
(lines 71–77): the value of the row's hidden `name$="-id"` input when such an
input exists, the empty string otherwise. The `DomCtx` argument is that
input's value (`none` when the row has no such input). -/
def getStoreIdFromRow2 (idInput : DomCtx) : String :=
  match idInput with
  | some v => v
  | none => ""

/-- The `(typeof oldData === "function") ? oldData(params) : (oldData || {})`
step of the wrapper installed by `patchEmployeeSelect2` (line 96): call the
previous data function when one exists; with the slot `undefined` start from
the empty object `{}` — not from `params`. -/
def baseApply2 (oldData : Option DataFn) (idInput : DomCtx) (params : ParamObj) : ParamObj :=
  match oldData with
  | some f => f idInput params
  | none => []

/-- The replacement `ajax.data` function installed by `patchEmployeeSelect2`
(`store_changelist_filters.js` lines 95–99): apply the previous data function
(or start from `{}`), then unconditionally write
`data.store_id = getStoreIdFromRow(selectEl)` — even when the extracted value
is the empty string. -/
def employeeSelect2Wrapper (oldData : Option DataFn) : DataFn :=
  fun idInput params =>
    setKey "store_id" (getStoreIdFromRow2 idInput) (baseApply2 oldData idInput params)

/-- The `s2.options.options` level as read by `patchEmployeeSelect2`
(line 90) — read without intermediate null checks, so embedded with the
chain present and only the `ajax` slot optional. -/
structure S2OptsB where
  ajax : Option AjaxCfg

/-- A select2 instance as assumed by `patchEmployeeSelect2`: the
`options.options` path is read unconditionally. -/
structure S2B where
  optionsOptions : S2OptsB

/-- The per-widget state touched by `patchEmployeeSelect2`: the
`patchedStoreId` marker stored on the element with `$el.data`, and the
select2 instance (or `undefined` before select2 initialises). -/
structure Widget2 where
  patchedStoreId : Bool
  select2 : Option S2B

/-- `patchEmployeeSelect2(selectEl)` of `store_changelist_filters.js`
(lines 79–102): skip when the `patchedStoreId` marker is set, when select2 is
not yet initialised, or when there is no `ajax` configuration; otherwise
install the wrapper and set the marker. -/
def patchEmployeeSelect2 (w : Widget2) : Widget2 :=
  if w.patchedStoreId then w
  else
    match w.select2 with
    | none => w
    | some s2 =>
      match s2.optionsOptions.ajax with
      | none => w
      | some ajax =>
        { patchedStoreId := true
          select2 := some ⟨⟨some ⟨some (employeeSelect2Wrapper ajax.data)⟩⟩⟩ }

/-- Instrumented variant of a select2 data function that also threads an
invocation counter, used to state that the original parameter function runs
at most once per outgoing call. -/
abbrev CDataFn := DomCtx → ParamObj → Nat → ParamObj × Nat

/-- An original (pre-patch) parameter function, instrumented to bump the
counter on every invocation. -/
def countingBase (g : ParamObj → ParamObj) : CDataFn :=
  fun _ params n => (g params, n + 1)

/-- The wrapper of `patchSelect2Ajax`, restated over counter-threading data
functions: identical control flow to `select2AjaxWrapper`, with the counter
passed through untouched by the wrapper itself. -/
def select2AjaxWrapperC (oldData : Option CDataFn) : CDataFn :=
  fun row params n =>
    let r := match oldData with
      | some f => f row params n
      | none => (params, n)
    (mergeStoreId row r.1, r.2)

theorem setKey_setKey (k v : String) (l : ParamObj) :
    setKey k v (setKey k v l) = setKey k v l := by
  induction l with
  | nil => simp [setKey]
  | cons hd tl ih =>
    obtain ⟨k', v'⟩ := hd
    by_cases h : k' = k <;> simp [setKey, h, ih]

theorem lookupKey_setKey_self (k v : String) (l : ParamObj) :
    lookupKey k (setKey k v l) = some v := by
  induction l with
  | nil => simp [setKey, lookupKey]
  | cons hd tl ih =>
    obtain ⟨k', v'⟩ := hd
    by_cases h : k' = k <;> simp [setKey, lookupKey, h, ih]

theorem lookupKey_setKey_other (j k v : String) (l : ParamObj) (hjk : j ≠ k) :
    lookupKey j (setKey k v l) = lookupKey j l := by
  induction l with
  | nil => simp [setKey, lookupKey, Ne.symm hjk]
  | cons hd tl ih =>
    obtain ⟨k', v'⟩ := hd
    by_cases h : k' = k
    · subst h
      simp [setKey, lookupKey, Ne.symm hjk]
    · simp [setKey, lookupKey, h, ih]

theorem mergeStoreId_idem (row : DomCtx) (d : ParamObj) :
    mergeStoreId row (mergeStoreId row d) = mergeStoreId row d := by
  unfold mergeStoreId
  cases h : getStoreIdFromRow row with
  | none => rfl
  | some sid =>
    by_cases hs : sid = "" <;> simp [hs, setKey_setKey]

theorem select2AjaxWrapper_wrap (oldData : Option DataFn) :
    select2AjaxWrapper (some (select2AjaxWrapper oldData)) = select2AjaxWrapper oldData := by
  funext row params
  show mergeStoreId row (select2AjaxWrapper oldData row params)
      = select2AjaxWrapper oldData row params
  unfold select2AjaxWrapper
  exact mergeStoreId_idem row (baseApply oldData row params)

/-- C1: invoking the patch procedure twice on the same widget instance is
equivalent to invoking it once. `patchEmployeeSelect2` skips a second run via
the `patchedStoreId` marker; `patchSelect2Ajax` re-wraps on a second run, but
the doubly wrapped data function is (extensionally) the single wrapper, and —
as the counting model shows — the original parameter function is still
invoked exactly once per outgoing request-parameter call. -/
theorem c1_patch_idempotent :
    (∀ w : Widget2, patchEmployeeSelect2 (patchEmployeeSelect2 w) = patchEmployeeSelect2 w)
    ∧ (∀ s : Option S2, patchSelect2Ajax (patchSelect2Ajax s) = patchSelect2Ajax s)
    ∧ (∀ (g : ParamObj → ParamObj) (row : DomCtx) (params : ParamObj),
        (select2AjaxWrapperC (some (select2AjaxWrapperC (some (countingBase g)))) row params 0).2
          = 1) := by
  refine ⟨?_, ?_, ?_⟩
  · intro w
    by_cases hp : w.patchedStoreId
    · simp [patchEmployeeSelect2, hp]
    · cases hs : w.select2 with
      | none => simp [patchEmployeeSelect2, hp, hs]
      | some s2 =>
        cases ha : s2.optionsOptions.ajax with
        | none => simp [patchEmployeeSelect2, hp, hs, ha]
        | some ajax => simp [patchEmployeeSelect2, hp, hs, ha]
  · intro s
    cases s with
    | none => rfl
    | some s2 =>
      cases ho : s2.options with
      | none => simp [patchSelect2Ajax, ho]
      | some outer =>
        cases hoo : outer.options with
        | none => simp [patchSelect2Ajax, ho, hoo]
        | some opts =>
          cases ha : opts.ajax with
          | none => simp [patchSelect2Ajax, ho, hoo, ha]
          | some ajax => simp [patchSelect2Ajax, ho, hoo, ha, select2AjaxWrapper_wrap]
  · intro g row params
    simp [select2AjaxWrapperC, countingBase]

/-- A sample previously-installed parameter function (as the admin's widget
library would have set), used only to instantiate theorems at concrete
inputs. -/
def sampleBase : DataFn :=
  fun _ params => setKey "page" "2" params

/-- A sample previously-installed parameter function that itself produces a
`store_id` entry, used only to instantiate theorems at concrete inputs. -/
def sampleBaseStore : DataFn :=
  fun _ _ => [("store_id", "999")]

/-- C2 counterexample: in `patchEmployeeSelect2`'s wrapper the write
`data.store_id = getStoreIdFromRow(selectEl)` is unconditional, so with no
hidden id input in the row (extraction yields the empty string) the returned
object does contain `store_id`, bound to the empty value — contradicting the
claim that the key is then absent. -/
theorem c2_counterexample :
    getStoreIdFromRow2 none = ""
    ∧ lookupKey "store_id" (employeeSelect2Wrapper none none []) = some "" := by
  decide

/-- C2 amended: for the autocomplete-by-service wrapper, when extraction
yields no value the result is the base result (resp. `params`) unchanged, so
`store_id` is absent whenever it was absent from that result; the
changelist-filters wrapper instead always binds `store_id`, to the empty
string when the row has no hidden id input. -/
theorem c2_contextual_key_absence :
    (∀ (f : DataFn) (row : DomCtx) (params : ParamObj),
        getStoreIdFromRow row = none →
        select2AjaxWrapper (some f) row params = f row params)
    ∧ (∀ (row : DomCtx) (params : ParamObj),
        getStoreIdFromRow row = none →
        select2AjaxWrapper none row params = params)
    ∧ (∀ (oldData : Option DataFn) (idInput : DomCtx) (params : ParamObj),
        lookupKey "store_id" (employeeSelect2Wrapper oldData idInput params)
          = some (getStoreIdFromRow2 idInput)) := by
  refine ⟨?_, ?_, ?_⟩
  · intro f row params h
    simp [select2AjaxWrapper, mergeStoreId, baseApply, h]
  · intro row params h
    simp [select2AjaxWrapper, mergeStoreId, baseApply, h]
  · intro oldData idInput params
    simp [employeeSelect2Wrapper, lookupKey_setKey_self]

theorem c2_witness :
    getStoreIdFromRow none = none
    ∧ select2AjaxWrapper (some sampleBase) none [("term", "a")] = sampleBase none [("term", "a")]
    ∧ select2AjaxWrapper none none [("term", "a")] = [("term", "a")]
    ∧ lookupKey "store_id" (employeeSelect2Wrapper none (some "7") [])
        = some (getStoreIdFromRow2 (some "7")) :=
  ⟨rfl, c2_contextual_key_absence.1 sampleBase none [("term", "a")] rfl,
    c2_contextual_key_absence.2.1 none [("term", "a")] rfl,
    c2_contextual_key_absence.2.2 none (some "7") []⟩

/-- C3 counterexample: with no prior base function, the wrapper installed by
`patchEmployeeSelect2` starts from the empty object `{}` — not from `params`
— so the incoming `term` entry is dropped, contradicting the claim that the
augmented function starts from `params` unchanged. -/
theorem c3_counterexample :
    lookupKey "term" (employeeSelect2Wrapper none (some "5") [("term", "ann")]) = none
    ∧ employeeSelect2Wrapper none (some "5") [("term", "ann")] = [("store_id", "5")] := by
  decide

/-- C3 amended: the autocomplete-by-service wrapper starts from `params`
unchanged when no base function exists and merges the extracted id — in
particular, a row edit link ending `/123/change/` with `params = \x7bterm: "ann"\x7d`
yields `\x7bterm: "ann", store_id: "123"\x7d`; the changelist-filters wrapper
instead starts from the empty object, returning only the `store_id` entry. -/
theorem c3_base_absent_params :
    (∀ (row : DomCtx) (params : ParamObj) (sid : String),
        getStoreIdFromRow row = some sid → sid ≠ "" →
        select2AjaxWrapper none row params = setKey "store_id" sid params)
    ∧ (∀ (row : DomCtx) (params : ParamObj),
        getStoreIdFromRow row = none →
        select2AjaxWrapper none row params = params)
    ∧ select2AjaxWrapper none (some "/admin/app/store/123/change/") [("term", "ann")]
        = [("term", "ann"), ("store_id", "123")]
    ∧ (∀ (idInput : DomCtx) (params : ParamObj),
        employeeSelect2Wrapper none idInput params
          = [("store_id", getStoreIdFromRow2 idInput)]) := by
  refine ⟨?_, ?_, by decide, ?_⟩
  · intro row params sid h hs
    simp [select2AjaxWrapper, mergeStoreId, baseApply, h, hs]
  · intro row params h
    simp [select2AjaxWrapper, mergeStoreId, baseApply, h]
  · intro idInput params
    simp [employeeSelect2Wrapper, baseApply2, setKey]

theorem c3_witness :
    getStoreIdFromRow (some "/x/9/change/") = some "9"
    ∧ ("9" : String) ≠ ""
    ∧ select2AjaxWrapper none (some "/x/9/change/") [("term", "q")]
        = setKey "store_id" "9" [("term", "q")] :=
  ⟨by decide, by decide,
    c3_base_absent_params.1 (some "/x/9/change/") [("term", "q")] "9" (by decide) (by decide)⟩

/-- C4 counterexample: with no prior base function, the wrapper installed by
`patchSelect2Ajax` starts from `params`, so with a contextual value available
the output still contains the incoming `term` entry — not only the
contextual key. -/
theorem c4_counterexample :
    lookupKey "store_id"
        (select2AjaxWrapper none (some "/admin/app/store/123/change/") [("term", "ann")])
      = some "123"
    ∧ lookupKey "term"
        (select2AjaxWrapper none (some "/admin/app/store/123/change/") [("term", "ann")])
      = some "ann" := by
  decide

/-- C4 amended: with the base function absent, the changelist-filters wrapper
returns exactly the one `store_id` entry and nothing else; the
autocomplete-by-service wrapper instead returns `params` with the extracted
id merged in. -/
theorem c4_base_absent_exact :
    (∀ (idInput : DomCtx) (params : ParamObj),
        employeeSelect2Wrapper none idInput params
          = [("store_id", getStoreIdFromRow2 idInput)])
    ∧ (∀ (row : DomCtx) (params : ParamObj) (sid : String),
        getStoreIdFromRow row = some sid → sid ≠ "" →
        select2AjaxWrapper none row params = setKey "store_id" sid params) := by
  constructor
  · intro idInput params
    simp [employeeSelect2Wrapper, baseApply2, setKey]
  · intro row params sid h hs
    simp [select2AjaxWrapper, mergeStoreId, baseApply, h, hs]

theorem c4_witness :
    employeeSelect2Wrapper none (some "42") [("term", "b")] = [("store_id", "42")]
    ∧ select2AjaxWrapper none (some "/x/9/change/") [] = setKey "store_id" "9" [] :=
  ⟨c4_base_absent_exact.1 (some "42") [("term", "b")],
    c4_base_absent_exact.2 (some "/x/9/change/") [] "9" (by decide) (by decide)⟩

/-- C5 counterexample: when the base function itself produces a `store_id`
entry, the wrapper overwrites it with the extracted value, so the base
output's pair `("store_id", "999")` is not contained in the augmented output
— contradicting the claim that no base-produced entry is removed or
altered. -/
theorem c5_counterexample :
    ("store_id", "999") ∈ sampleBaseStore (some "/admin/app/store/123/change/") []
    ∧ ("store_id", "999") ∉
        select2AjaxWrapper (some sampleBaseStore) (some "/admin/app/store/123/change/") [] := by
  decide

/-- C5 amended: with the base function present, both wrappers preserve the
binding of every key other than `store_id`; the difference is confined to
`store_id`, which the autocomplete-by-service wrapper binds to the extracted
id when one is available (returning the base output unchanged otherwise) and
which the changelist-filters wrapper always binds to the extracted value. -/
theorem c5_base_frame :
    (∀ (f : DataFn) (row : DomCtx) (params : ParamObj) (k : String),
        k ≠ "store_id" →
        lookupKey k (select2AjaxWrapper (some f) row params) = lookupKey k (f row params))
    ∧ (∀ (f : DataFn) (idInput : DomCtx) (params : ParamObj) (k : String),
        k ≠ "store_id" →
        lookupKey k (employeeSelect2Wrapper (some f) idInput params)
          = lookupKey k (f idInput params))
    ∧ (∀ (f : DataFn) (row : DomCtx) (params : ParamObj) (sid : String),
        getStoreIdFromRow row = some sid → sid ≠ "" →
        lookupKey "store_id" (select2AjaxWrapper (some f) row params) = some sid)
    ∧ (∀ (f : DataFn) (row : DomCtx) (params : ParamObj),
        getStoreIdFromRow row = none →
        select2AjaxWrapper (some f) row params = f row params)
    ∧ (∀ (f : DataFn) (idInput : DomCtx) (params : ParamObj),
        lookupKey "store_id" (employeeSelect2Wrapper (some f) idInput params)
          = some (getStoreIdFromRow2 idInput)) := by
  refine ⟨?_, ?_, ?_, ?_, ?_⟩
  · intro f row params k hk
    unfold select2AjaxWrapper mergeStoreId
    cases h : getStoreIdFromRow row with
    | none => rfl
    | some sid =>
      by_cases hs : sid = ""
      · simp [hs, baseApply]
      · simp [hs, baseApply, lookupKey_setKey_other k "store_id" sid _ hk]
  · intro f idInput params k hk
    simp [employeeSelect2Wrapper, baseApply2,
      lookupKey_setKey_other k "store_id" (getStoreIdFromRow2 idInput) _ hk]
  · intro f row params sid h hs
    simp [select2AjaxWrapper, mergeStoreId, h, hs, lookupKey_setKey_self]
  · intro f row params h
    simp [select2AjaxWrapper, mergeStoreId, baseApply, h]
  · intro f idInput params
    simp [employeeSelect2Wrapper, lookupKey_setKey_self]

theorem c5_witness :
    ("term" : String) ≠ "store_id"
    ∧ lookupKey "term" (select2AjaxWrapper (some sampleBase) (some "/x/9/change/") [("term", "a")])
        = lookupKey "term" (sampleBase (some "/x/9/change/") [("term", "a")])
    ∧ lookupKey "store_id"
        (select2AjaxWrapper (some sampleBase) (some "/x/9/change/") [("term", "a")])
        = some "9"
    ∧ lookupKey "store_id" (employeeSelect2Wrapper (some sampleBase) (some "42") [])
        = some (getStoreIdFromRow2 (some "42")) :=
  ⟨by decide,
    c5_base_frame.1 sampleBase (some "/x/9/change/") [("term", "a")] "term" (by decide),
    c5_base_frame.2.2.1 sampleBase (some "/x/9/change/") [("term", "a")] "9" (by decide) (by decide),
    c5_base_frame.2.2.2.2 sampleBase (some "42") []⟩

/-- The `s2.options.options.ajax` path as read by the guard of
`patchSelect2Ajax`: `none` when the select2 instance is absent, when either
`options` level is absent, or when the `ajax` slot is absent. -/
def s2AjaxOf : Option S2 → Option AjaxCfg
  | none => none
  | some s2 =>
    match s2.options with
    | none => none
    | some outer =>
      match outer.options with
      | none => none
      | some opts => opts.ajax

/-- The `ajax` configuration as read by `patchEmployeeSelect2`: `none` when
select2 has not initialised on the element or when the widget has no `ajax`
configuration. -/
def w2AjaxOf (w : Widget2) : Option AjaxCfg :=
  match w.select2 with
  | none => none
  | some s2 => s2.optionsOptions.ajax

/-- C6: when the select2 configuration object is not yet initialised, or is
initialised without a network-request (`ajax`) configuration, both patch
procedures return the state unchanged. The embedded patch functions are
total, reflecting that these guard paths raise no error. -/
theorem c6_guard_noop :
    (∀ s : Option S2, s2AjaxOf s = none → patchSelect2Ajax s = s)
    ∧ (∀ w : Widget2, w2AjaxOf w = none → patchEmployeeSelect2 w = w) := by
  constructor
  · intro s h
    cases s with
    | none => rfl
    | some s2 =>
      cases ho : s2.options with
      | none => simp [patchSelect2Ajax, ho]
      | some outer =>
        cases hoo : outer.options with
        | none => simp [patchSelect2Ajax, ho, hoo]
        | some opts =>
          cases ha : opts.ajax with
          | none => simp [patchSelect2Ajax, ho, hoo, ha]
          | some ajax =>
            exfalso
            simp [s2AjaxOf, ho, hoo, ha] at h
  · intro w h
    by_cases hp : w.patchedStoreId
    · simp [patchEmployeeSelect2, hp]
    · cases hs : w.select2 with
      | none => simp [patchEmployeeSelect2, hp, hs]
      | some s2 =>
        cases ha : s2.optionsOptions.ajax with
        | none => simp [patchEmployeeSelect2, hp, hs, ha]
        | some ajax =>
          exfalso
          simp [w2AjaxOf, hs, ha] at h

theorem c6_witness :
    s2AjaxOf (some ⟨none⟩) = none
    ∧ patchSelect2Ajax (some ⟨none⟩) = some ⟨none⟩
    ∧ w2AjaxOf ⟨false, none⟩ = none
    ∧ patchEmployeeSelect2 ⟨false, none⟩ = ⟨false, none⟩ :=
  ⟨rfl, c6_guard_noop.1 (some ⟨none⟩) rfl, rfl, c6_guard_noop.2 ⟨false, none⟩ rfl⟩

/-- C8: the wrappers are deterministic given the call-time DOM context —
equal contexts give equal outputs — and the contextual value is computed from
the context supplied at each call, not captured at patch time:
`patchSelect2Ajax` installs `select2AjaxWrapper ajax.data`, a function of the
call-time row, and the installed `store_id` binding tracks that row's
extraction on every call (likewise for the changelist-filters wrapper and its
hidden-input context). -/
theorem c8_calltime_determinism :
    (∀ (oldData : Option DataFn) (row row' : DomCtx) (params : ParamObj),
        row = row' →
        select2AjaxWrapper oldData row params = select2AjaxWrapper oldData row' params)
    ∧ (∀ (oldData : Option DataFn) (row : DomCtx) (params : ParamObj) (sid : String),
        getStoreIdFromRow row = some sid → sid ≠ "" →
        lookupKey "store_id" (select2AjaxWrapper oldData row params) = some sid)
    ∧ (∀ (oldData : Option DataFn) (idInput : DomCtx) (params : ParamObj),
        lookupKey "store_id" (employeeSelect2Wrapper oldData idInput params)
          = some (getStoreIdFromRow2 idInput))
    ∧ (∀ ajax : AjaxCfg,
        patchSelect2Ajax (some ⟨some ⟨some ⟨some ajax⟩⟩⟩)
          = some ⟨some ⟨some ⟨some ⟨some (select2AjaxWrapper ajax.data)⟩⟩⟩⟩) := by
  refine ⟨?_, ?_, ?_, ?_⟩
  · intro oldData row row' params h
    rw [h]
  · intro oldData row params sid h hs
    simp [select2AjaxWrapper, mergeStoreId, h, hs, lookupKey_setKey_self]
  · intro oldData idInput params
    simp [employeeSelect2Wrapper, lookupKey_setKey_self]
  · intro ajax
    rfl

theorem c8_witness :
    select2AjaxWrapper none (some "/x/9/change/") [("term", "a")]
        = select2AjaxWrapper none (some "/x/9/change/") [("term", "a")]
    ∧ lookupKey "store_id" (select2AjaxWrapper (some sampleBase) (some "/x/9/change/") [])
        = some "9"
    ∧ lookupKey "store_id" (employeeSelect2Wrapper (some sampleBase) (some "42") [])
        = some (getStoreIdFromRow2 (some "42")) :=
  ⟨c8_calltime_determinism.1 none (some "/x/9/change/") (some "/x/9/change/") [("term", "a")] rfl,
    c8_calltime_determinism.2.1 (some sampleBase) (some "/x/9/change/") [] "9"
      (by decide) (by decide),
    c8_calltime_determinism.2.2.1 (some sampleBase) (some "42") []⟩

/-- `URLSearchParams.delete(k)`: remove every entry named `k`, keeping the
order of the rest. -/
def spDelete (k : String) : List (String × String) → List (String × String)
  | [] => []
  | (k', v') :: rest => if k' = k then spDelete k rest else (k', v') :: spDelete k rest

/-- `URLSearchParams.set(k, v)`: replace the value of the first entry named
`k` in place and drop any further entries named `k`; append a new entry when
none exists. -/
def spSet (k v : String) : List (String × String) → List (String × String)
  | [] => [(k, v)]
  | (k', v') :: rest => if k' = k then (k, v) :: spDelete k rest else (k', v') :: spSet k v rest

/-- The list of values bound to name `k` in a query, in order
(`URLSearchParams.getAll(k)`), used to state which entries an update
touches. -/
def entriesFor (k : String) (l : List (String × String)) : List String :=
  (l.filter (fun kv => kv.1 == k)).map Prod.snd

/-- `URLSearchParams.toString()`: join the entries as `k=v` pairs with `&`
(percent-encoding is the identity on the values this repository passes). -/
def renderQuery : List (String × String) → String
  | [] => ""
  | [(k, v)] => k ++ "=" ++ v
  | (k, v) :: rest => k ++ "=" ++ v ++ "&" ++ renderQuery rest

/-- The parameter edit performed by `updateQuery` of
`store_changelist_filters.js` (lines 2–16): delete the pagination entry `p`,
then delete `param` when `value` is falsy (the empty string) and otherwise
set `param` to `value`. -/
def updateQueryParams (query : List (String × String)) (param value : String) :
    List (String × String) :=
  let ps := spDelete "p" query
  if value = "" then spDelete param ps else spSet param value ps

/-- `updateQuery(param, value)`: the location the browser is navigated to —
`url.pathname + "?" + params.toString()` after the parameter edit. -/
def updateQuery (pathname : String) (query : List (String × String)) (param value : String) :
    String :=
  pathname ++ "?" ++ renderQuery (updateQueryParams query param value)

theorem entriesFor_nil (k : String) : entriesFor k [] = [] := rfl

theorem entriesFor_cons (k k' v' : String) (tl : List (String × String)) :
    entriesFor k ((k', v') :: tl)
      = if k' = k then v' :: entriesFor k tl else entriesFor k tl := by
  by_cases h : k' = k <;> simp [entriesFor, h]

theorem entriesFor_spDelete_self (k : String) (l : List (String × String)) :
    entriesFor k (spDelete k l) = [] := by
  induction l with
  | nil => rfl
  | cons hd tl ih =>
    obtain ⟨k', v'⟩ := hd
    by_cases h : k' = k <;> simp [spDelete, entriesFor_cons, h, ih]

theorem entriesFor_spDelete_other (j k : String) (l : List (String × String)) (hjk : j ≠ k) :
    entriesFor j (spDelete k l) = entriesFor j l := by
  induction l with
  | nil => rfl
  | cons hd tl ih =>
    obtain ⟨k', v'⟩ := hd
    by_cases h : k' = k
    · subst h
      simp [spDelete, entriesFor_cons, Ne.symm hjk, ih]
    · simp [spDelete, entriesFor_cons, h, ih]

theorem entriesFor_spSet_self (k v : String) (l : List (String × String)) :
    entriesFor k (spSet k v l) = [v] := by
  induction l with
  | nil => simp [spSet, entriesFor_cons, entriesFor_nil]
  | cons hd tl ih =>
    obtain ⟨k', v'⟩ := hd
    by_cases h : k' = k <;>
      simp [spSet, entriesFor_cons, h, ih, entriesFor_spDelete_self]

theorem entriesFor_spSet_other (j k v : String) (l : List (String × String)) (hjk : j ≠ k) :
    entriesFor j (spSet k v l) = entriesFor j l := by
  induction l with
  | nil => simp [spSet, entriesFor_cons, entriesFor_nil, Ne.symm hjk]
  | cons hd tl ih =>
    obtain ⟨k', v'⟩ := hd
    by_cases h : k' = k
    · subst h
      simp [spSet, entriesFor_cons, Ne.symm hjk, entriesFor_spDelete_other j k' tl hjk]
    · simp [spSet, entriesFor_cons, h, ih]

/-- C9: for every current URL and selected value, `updateQuery` removes the
pagination entry `p`, removes the filter parameter when the selected value is
empty and otherwise binds it to exactly the selected value, leaves the
entries of every other parameter unchanged, and navigates to
`pathname + "?" + params.toString()`. (The call site passes the filter
parameter `"service"`; the hypothesis `param ≠ "p"` records that the filter
parameter is not the pagination parameter.) -/
theorem c9_updateQuery :
    ∀ (pathname : String) (query : List (String × String)) (param value : String),
      param ≠ "p" →
      (entriesFor "p" (updateQueryParams query param value) = []
      ∧ (value = "" → entriesFor param (updateQueryParams query param value) = [])
      ∧ (value ≠ "" → entriesFor param (updateQueryParams query param value) = [value])
      ∧ (∀ k, k ≠ "p" → k ≠ param →
          entriesFor k (updateQueryParams query param value) = entriesFor k query)
      ∧ updateQuery pathname query param value
          = pathname ++ "?" ++ renderQuery (updateQueryParams query param value)) := by
  intro pathname query param value hp
  refine ⟨?_, ?_, ?_, ?_, rfl⟩
  · by_cases hv : value = "" <;>
      simp [updateQueryParams, hv, entriesFor_spDelete_self,
        entriesFor_spDelete_other "p" param _ (Ne.symm hp),
        entriesFor_spSet_other "p" param value _ (Ne.symm hp)]
  · intro hv
    simp [updateQueryParams, hv, entriesFor_spDelete_self]
  · intro hv
    simp [updateQueryParams, hv, entriesFor_spSet_self]
  · intro k hkp hkparam
    by_cases hv : value = "" <;>
      simp [updateQueryParams, hv, entriesFor_spDelete_other k "p" _ hkp,
        entriesFor_spDelete_other k param _ hkparam,
        entriesFor_spSet_other k param value _ hkparam]

theorem c9_witness :
    ("service" : String) ≠ "p"
    ∧ entriesFor "p" (updateQueryParams [("p", "3"), ("service", "old"), ("o", "1")]
        "service" "both") = []
    ∧ entriesFor "service" (updateQueryParams [("p", "3"), ("service", "old"), ("o", "1")]
        "service" "both") = ["both"]
    ∧ entriesFor "o" (updateQueryParams [("p", "3"), ("service", "old"), ("o", "1")]
        "service" "both") = entriesFor "o" [("p", "3"), ("service", "old"), ("o", "1")]
    ∧ updateQuery "/admin/app/store/" [("p", "3"), ("service", "old"), ("o", "1")]
        "service" "both"
      = "/admin/app/store/" ++ "?" ++ renderQuery (updateQueryParams
          [("p", "3"), ("service", "old"), ("o", "1")] "service" "both") := by
  have h := c9_updateQuery "/admin/app/store/" [("p", "3"), ("service", "old"), ("o", "1")]
    "service" "both" (by decide)
  exact ⟨by decide, h.1, h.2.2.1 (by decide), h.2.2.2.1 "o" (by decide) (by decide), h.2.2.2.2⟩

/-- The part of the document state that `injectServiceFilter` of
`store_changelist_filters.js` (lines 23–62) reads and writes: whether
`th.column-services` exists, and how many `.service-filter-select` elements
that header cell contains. -/
structure HeaderDom where
  thColumnServices : Bool
  serviceSelectCount : Nat
deriving DecidableEq

/-- `injectServiceFilter()`: return when the header cell is absent or when it
already contains a `.service-filter-select`; otherwise append one select (the
remaining DOM construction only fills that select). -/
def injectServiceFilter (d : HeaderDom) : HeaderDom :=
  if !d.thColumnServices then d
  else if d.serviceSelectCount ≠ 0 then d
  else { d with serviceSelectCount := d.serviceSelectCount + 1 }

/-- The part of the document state that `mountTopFilters` of
`store_changelist_header_filters.js` (lines 78–112) reads and writes:
presence of `#changelist-filter`, of the three anchor candidates, of the two
filter lists found by title, and how many `.top-filters` panels exist. -/
structure TopDom where
  changelistFilter : Bool
  toolbar : Bool
  actions : Bool
  changelist : Bool
  statusUl : Bool
  serviceUl : Bool
  topFiltersCount : Nat
deriving DecidableEq

/-- `mountTopFilters()`: return when `#changelist-filter` is absent, when no
anchor (`#toolbar`, `#changelist .actions` or `#changelist`) exists, when a
`.top-filters` panel is already present, or when neither filter list is
found; otherwise insert one panel. -/
def mountTopFilters (d : TopDom) : TopDom :=
  if !d.changelistFilter then d
  else if !(d.toolbar || d.actions || d.changelist) then d
  else if d.topFiltersCount ≠ 0 then d
  else if !d.statusUl && !d.serviceUl then d
  else { d with topFiltersCount := d.topFiltersCount + 1 }

/-- The part of the document state that the `DOMContentLoaded` handler of
`src/unnamed/part_000` reads and writes: how many elements with id
`source_suggestions` exist, and whether the `input[list="source_suggestions"]`
is present. -/
structure SuggestDom where
  sourceSuggestionsCount : Nat
  inputPresent : Bool
deriving DecidableEq

/-- The datalist mount of `src/unnamed/part_000` (lines 2–21): return when a
`#source_suggestions` element already exists or when the target input is
absent; otherwise append one datalist to the body. -/
def mountSourceDatalist (d : SuggestDom) : SuggestDom :=
  if d.sourceSuggestionsCount ≠ 0 then d
  else if !d.inputPresent then d
  else { d with sourceSuggestionsCount := d.sourceSuggestionsCount + 1 }

/-- C10: each DOM-injection entry point is idempotent on the document — when
the element it would create already exists the call leaves the document
unchanged, re-invocation is a no-op, and from a document without the element
a call creates at most one instance, so fixed-delay retry calls never
duplicate the panel, the header select, or the datalist. -/
theorem c10_injection_idempotent :
    (∀ d : HeaderDom, d.serviceSelectCount ≠ 0 → injectServiceFilter d = d)
    ∧ (∀ d : HeaderDom, injectServiceFilter (injectServiceFilter d) = injectServiceFilter d)
    ∧ (∀ d : HeaderDom, d.serviceSelectCount = 0 →
        (injectServiceFilter d).serviceSelectCount ≤ 1)
    ∧ (∀ d : TopDom, d.topFiltersCount ≠ 0 → mountTopFilters d = d)
    ∧ (∀ d : TopDom, mountTopFilters (mountTopFilters d) = mountTopFilters d)
    ∧ (∀ d : TopDom, d.topFiltersCount = 0 → (mountTopFilters d).topFiltersCount ≤ 1)
    ∧ (∀ d : SuggestDom, d.sourceSuggestionsCount ≠ 0 → mountSourceDatalist d = d)
    ∧ (∀ d : SuggestDom, mountSourceDatalist (mountSourceDatalist d) = mountSourceDatalist d)
    ∧ (∀ d : SuggestDom, d.sourceSuggestionsCount = 0 →
        (mountSourceDatalist d).sourceSuggestionsCount ≤ 1) := by
  refine ⟨?_, ?_, ?_, ?_, ?_, ?_, ?_, ?_, ?_⟩
  · intro d h
    obtain ⟨th, cnt⟩ := d
    cases th <;> simp_all [injectServiceFilter]
  · intro d
    obtain ⟨th, cnt⟩ := d
    cases th <;> by_cases h : cnt = 0 <;> simp_all [injectServiceFilter]
  · intro d h
    obtain ⟨th, cnt⟩ := d
    cases th <;> simp_all [injectServiceFilter]
  · intro d h
    obtain ⟨cf, tb, ac, cl, su, sv, cnt⟩ := d
    cases cf <;> cases tb <;> cases ac <;> cases cl <;> cases su <;> cases sv <;>
      simp_all [mountTopFilters]
  · intro d
    obtain ⟨cf, tb, ac, cl, su, sv, cnt⟩ := d
    cases cf <;> cases tb <;> cases ac <;> cases cl <;> cases su <;> cases sv <;>
      by_cases h : cnt = 0 <;> simp_all [mountTopFilters]
  · intro d h
    obtain ⟨cf, tb, ac, cl, su, sv, cnt⟩ := d
    cases cf <;> cases tb <;> cases ac <;> cases cl <;> cases su <;> cases sv <;>
      simp_all [mountTopFilters]
  · intro d h
    obtain ⟨cnt, inp⟩ := d
    cases inp <;> simp_all [mountSourceDatalist]
  · intro d
    obtain ⟨cnt, inp⟩ := d
    cases inp <;> by_cases h : cnt = 0 <;> simp_all [mountSourceDatalist]
  · intro d h
    obtain ⟨cnt, inp⟩ := d
    cases inp <;> simp_all [mountSourceDatalist]

theorem c10_witness :
    injectServiceFilter ⟨true, 1⟩ = (⟨true, 1⟩ : HeaderDom)
    ∧ (injectServiceFilter ⟨true, 0⟩).serviceSelectCount ≤ 1
    ∧ mountTopFilters ⟨true, true, false, false, true, true, 1⟩
        = (⟨true, true, false, false, true, true, 1⟩ : TopDom)
    ∧ (mountTopFilters ⟨true, true, false, false, true, true, 0⟩).topFiltersCount ≤ 1
    ∧ mountSourceDatalist ⟨1, true⟩ = (⟨1, true⟩ : SuggestDom)
    ∧ (mountSourceDatalist ⟨0, true⟩).sourceSuggestionsCount ≤ 1 :=
  ⟨c10_injection_idempotent.1 ⟨true, 1⟩ (by decide),
    c10_injection_idempotent.2.2.1 ⟨true, 0⟩ (by decide),
    c10_injection_idempotent.2.2.2.1 ⟨true, true, false, false, true, true, 1⟩ (by decide),
    c10_injection_idempotent.2.2.2.2.2.1 ⟨true, true, false, false, true, true, 0⟩ (by decide),
    c10_injection_idempotent.2.2.2.2.2.2.1 ⟨1, true⟩ (by decide),
    c10_injection_idempotent.2.2.2.2.2.2.2.2 ⟨0, true⟩ (by decide)⟩

/-- Outcome of evaluating a JavaScript expression that may throw a
`ReferenceError` (reading a bare identifier that names no declared global). -/
inductive JsEval (α : Type) where
  | ok (v : α)
  | referenceError
deriving DecidableEq

/-- The library handle of `store_employee_autocomplete_by_service.js`
(line 3): `window.django && window.django.jQuery ? window.django.jQuery :
null`. Property reads on `window` never throw, so this is a total function;
the result records whether the handle is non-null. -/
def resolveJQueryViaWindow (djangoDefined jQueryDefined : Bool) : Bool :=
  djangoDefined && jQueryDefined

/-- The library handle of `store_changelist_filters.js` (line 69):
`django && django.jQuery ? django.jQuery : null`. Here `django` is a bare
identifier, so when no global named `django` is declared the evaluation
throws a `ReferenceError` instead of returning early. -/
def resolveJQueryBare (djangoDefined jQueryDefined : Bool) : JsEval Bool :=
  if !djangoDefined then JsEval.referenceError
  else JsEval.ok (djangoDefined && jQueryDefined)

/-- The library guard of the `store_employee_autocomplete_by_service.js` IIFE
(lines 5–8): when the handle is null, emit the one informational console
warning and stop; otherwise proceed silently. The result is the list of
emitted console messages and whether the script proceeded. -/
def autocompleteLibraryCheck (hasJQuery : Bool) : List String × Bool :=
  if !hasJQuery then
    (["django.jQuery не найден — autocomplete by service отключён"], false)
  else ([], true)

/-- C7: precondition-failure handling across the entry points. The DOM-side
guards do return early, silently, and the autocomplete file emits exactly its
one console warning when the library handle is null — but
`store_changelist_filters.js` reads the bare global `django`, so an absent
library global raises a `ReferenceError` there rather than being handled by
an early return (and, independently, that file contains an unmatched `});`
at line 120, a syntax error). The first conjuncts evaluate the failing
library read; the rest confirm the silent early returns elsewhere. -/
theorem c7_precondition_handling :
    resolveJQueryBare false true = JsEval.referenceError
    ∧ resolveJQueryBare false false = JsEval.referenceError
    ∧ (∀ jq : Bool, resolveJQueryViaWindow false jq = false)
    ∧ (autocompleteLibraryCheck false).1
        = ["django.jQuery не найден — autocomplete by service отключён"]
    ∧ (autocompleteLibraryCheck false).2 = false
    ∧ autocompleteLibraryCheck true = ([], true)
    ∧ (∀ d : TopDom, d.changelistFilter = false → mountTopFilters d = d)
    ∧ (∀ d : HeaderDom, d.thColumnServices = false → injectServiceFilter d = d)
    ∧ (∀ d : SuggestDom, d.sourceSuggestionsCount = 0 → d.inputPresent = false →
        mountSourceDatalist d = d) := by
  refine ⟨rfl, rfl, ?_, rfl, rfl, rfl, ?_, ?_, ?_⟩
  · intro jq
    cases jq <;> rfl
  · intro d h
    simp [mountTopFilters, h]
  · intro d h
    simp [injectServiceFilter, h]
  · intro d h hi
    simp [mountSourceDatalist, h, hi]

theorem c7_witness :
    mountTopFilters ⟨false, true, true, true, true, true, 0⟩
        = (⟨false, true, true, true, true, true, 0⟩ : TopDom)
    ∧ injectServiceFilter ⟨false, 0⟩ = (⟨false, 0⟩ : HeaderDom)
    ∧ mountSourceDatalist ⟨0, false⟩ = (⟨0, false⟩ : SuggestDom) :=
  ⟨c7_precondition_handling.2.2.2.2.2.2.1 ⟨false, true, true, true, true, true, 0⟩ rfl,
    c7_precondition_handling.2.2.2.2.2.2.2.1 ⟨false, 0⟩ rfl,
    c7_precondition_handling.2.2.2.2.2.2.2.2 ⟨0, false⟩ rfl rfl⟩

end CrmSpec
